import Mathlib

/-!
Verification of the batch audio-transcription pipeline (whisperx usage harness).

The development shallowly embeds the repository's pure logic:

* `src/config/config_loader.py` — dotted-path configuration lookup (`Config.get`);
* `src/utils/file_handler.py` — audio-file discovery, output-path resolution,
  output-existence check;
* `src/utils/exporter.py` — per-format export dispatch and the txt/srt renderers;
* `src/pipeline/transcription_pipeline.py` — the run loop and per-file state
  machine, embedded as a pure function from per-file environments (which stage,
  if any, raises; whether outputs already exist) to final statistics plus an
  event trace.

Python strings are modelled as Lean `String`; the string primitives the code
relies on (`str.lower`, `str.strip`, `str.split`, glob suffix matching,
`list.sort` on paths, `Path.stem`) are re-implemented below by structural
recursion on the character list so that every definition evaluates inside the
kernel.  Python floats are modelled as exact rationals `ℚ`; `int()` truncation
and the `//` and `%` operators are modelled exactly.  Filesystem contents are
passed explicitly (a directory is a list of file names, the set of existing
output files is a list of paths).
-/

/-- Lower-case an ASCII letter, as Python `str.lower` does on the ASCII range
(the configured audio extensions are ASCII). -/
def charToLower (c : Char) : Char :=
  if 'A' ≤ c ∧ c ≤ 'Z' then Char.ofNat (c.toNat + 32) else c

/-- Python `str.lower` (ASCII range). -/
def strToLower (s : String) : String := ⟨s.data.map charToLower⟩

/-- Does list `l` end with the list `p`? -/
def listEndsWith (l p : List Char) : Bool := decide (l.drop (l.length - p.length) = p)

/-- Suffix test on strings: the semantics of a POSIX glob match against the
pattern `*{pat}` when `pat` is a literal extension such as `.mp3` (the match is
case-sensitive, and `*` may match the empty string). -/
def strEndsWith (s pat : String) : Bool := listEndsWith s.data pat.data

/-- Helper for `splitOnChar`: accumulates the current field (reversed). -/
def splitAux (c : Char) : List Char → List Char → List String
  | [], acc => [String.mk acc.reverse]
  | x :: xs, acc =>
      if x = c then String.mk acc.reverse :: splitAux c xs []
      else splitAux c xs (x :: acc)

/-- Python `str.split(c)` for a one-character separator: keeps empty fields,
and splitting the empty string yields `[""]`. -/
def splitOnChar (c : Char) (s : String) : List String := splitAux c s.data []

/-- Lexicographic comparison of character lists by code point, the order Python
uses to compare strings (and hence to sort paths sharing a parent directory). -/
def listLe : List Char → List Char → Bool
  | [], _ => true
  | _ :: _, [] => false
  | a :: as, b :: bs => if a < b then true else if a = b then listLe as bs else false

/-- Python string `<=` (lexicographic by code point). -/
def strLe (a b : String) : Bool := listLe a.data b.data

/-- Insert into a `strLe`-sorted list. -/
def insertSorted (x : String) : List String → List String
  | [] => [x]
  | y :: ys => if strLe x y then x :: y :: ys else y :: insertSorted x ys

/-- Sorting a list of strings lexicographically, modelling `list.sort()` on
paths that share one parent directory. -/
def sortStrs : List String → List String
  | [] => []
  | x :: xs => insertSorted x (sortStrs xs)

/-- ASCII whitespace, as stripped by Python `str.strip()`. -/
def isWS (c : Char) : Bool :=
  c = ' ' ∨ c = '\t' ∨ c = '\n' ∨ c = '\r' ∨ c = '\x0b' ∨ c = '\x0c'

/-- Python `str.strip()` (ASCII whitespace). -/
def trimStr (s : String) : String :=
  ⟨((s.data.dropWhile isWS).reverse.dropWhile isWS).reverse⟩

/-- Python `f"{n:0{width}d}"` for the non-negative integers produced by the
time formatters: zero-pad the decimal representation to `width` digits. -/
def padInt (width : Nat) (n : Int) : String :=
  let s := toString n
  if s.length < width then String.mk (List.replicate (width - s.length) '0') ++ s else s

/-- Python `x % m` on numbers (sign of the divisor; exact on rationals). -/
def pyMod (x m : ℚ) : ℚ := x - m * ⌊x / m⌋

/-- Python `int(x)`: truncation toward zero. -/
def pyInt (x : ℚ) : Int := if 0 ≤ x then ⌊x⌋ else ⌈x⌉

/-- Index of the last occurrence of `c`, as Python `str.rfind`. -/
def rfindChar (c : Char) : List Char → Option Nat
  | [] => none
  | x :: xs =>
      match rfindChar c xs with
      | some i => some (i + 1)
      | none => if x = c then some 0 else none

/-- Python `PurePath.stem` on a file name: the name with its suffix removed,
where the suffix is the part after the last dot only when that dot is neither
the first nor the last character (`"foo.mp3" ↦ "foo"`, but
`"foo_transcricao." ↦ "foo_transcricao."` — a trailing dot is kept). -/
def pyStem (name : String) : String :=
  match rfindChar '.' name.data with
  | some i =>
      if 0 < i ∧ i < name.data.length - 1 then String.mk (name.data.take i) else name
  | none => name

/-- A YAML-like configuration value, the tree `Config._config` holds
(`yaml.safe_load` output): null, scalars, sequences and string-keyed maps. -/
inductive YVal where
  | null : YVal
  | bool : Bool → YVal
  | int : Int → YVal
  | str : String → YVal
  | list : List YVal → YVal
  | dict : List (String × YVal) → YVal

/-- The loop body of `Config.get` (src/config/config_loader.py:49-61): walk the
keys; a non-mapping value returns the default, a key that is absent (Python
`dict.get` returning `None`) or explicitly null returns the default. -/
def Config.getKeys : List String → YVal → YVal → YVal
  | [], value, _ => value
  | key :: rest, value, default =>
      match value with
      | YVal.dict m =>
          match m.lookup key with
          | none => default
          | some YVal.null => default
          | some v => Config.getKeys rest v default
      | _ => default

/-- `Config.get(key_path, default)` (src/config/config_loader.py:38-61):
split the dotted path and walk the nested mapping. -/
def Config.get (config : YVal) (key_path : String) (default : YVal) : YVal :=
  Config.getKeys (splitOnChar '.' key_path) config default

/-- A dotted key path is present in the tree when every key exists in a
mapping along the walk (used to state claim C5; not part of the source). -/
def Config.pathPresent : YVal → List String → Bool
  | _, [] => true
  | value, key :: rest =>
      match value with
      | YVal.dict m =>
          match m.lookup key with
          | some v => Config.pathPresent v rest
          | none => false
      | _ => false

/-- A filesystem path split as parent directory and final component, enough to
model `Path.parent`, `Path.stem` and the `dir / name` joins the code performs. -/
structure PyPath where
  dir : String
  name : String
deriving DecidableEq

/-- `FileHandler.find_audio_files` (src/utils/file_handler.py:32-54): the
extension allow-list is lowered at construction (line 26); for each extension
the input directory is globbed with `*{ext}` (case-sensitive suffix match on
POSIX); the union is then sorted.  The directory contents are passed as the
list of file names in scan order. -/
def FileHandler.find_audio_files (dirFiles : List String) (audio_extensions : List String) :
    List String :=
  let exts := audio_extensions.map strToLower
  let audio_files := exts.flatMap (fun ext => dirFiles.filter (fun f => strEndsWith f ext))
  sortStrs audio_files

/-- `FileHandler.get_output_path` (src/utils/file_handler.py:69-81):
`output_dir / f"{audio_path.stem}_transcricao.{extension}"`. -/
def FileHandler.get_output_path (output_dir : String) (audio_path : PyPath)
    (extension : String) : PyPath :=
  ⟨output_dir, pyStem audio_path.name ++ "_transcricao." ++ extension⟩

/-- `FileHandler.output_exists` (src/utils/file_handler.py:83-97): true iff the
resolved output path exists for every requested format.  `existing` is the set
of files on disk. -/
def FileHandler.output_exists (existing : List PyPath) (output_dir : String)
    (audio_path : PyPath) (formats : List String) : Bool :=
  formats.all (fun fmt => existing.contains (FileHandler.get_output_path output_dir audio_path fmt))

/-- `Exporter.export_json` output path (src/utils/exporter.py:74):
`base_path.parent / f"{base_path.stem}.json"`. -/
def Exporter.export_json_path (base_path : PyPath) : PyPath :=
  ⟨base_path.dir, pyStem base_path.name ++ (".json")⟩

/-- `Exporter.export_txt` output path (src/utils/exporter.py:99). -/
def Exporter.export_txt_path (base_path : PyPath) : PyPath :=
  ⟨base_path.dir, pyStem base_path.name ++ (".txt")⟩

/-- `Exporter.export_srt` output path (src/utils/exporter.py:137). -/
def Exporter.export_srt_path (base_path : PyPath) : PyPath :=
  ⟨base_path.dir, pyStem base_path.name ++ (".srt")⟩

/-- The output path of an arbitrary format, for stating the export contract. -/
def Exporter.fmtPath (output_path : PyPath) (fmt : String) : PyPath :=
  ⟨output_path.dir, pyStem output_path.name ++ ("." ++ fmt)⟩

/-- One iteration of the `Exporter.export` loop (src/utils/exporter.py:43-59):
dispatch on the format name; an unknown name is logged and skipped; the write
of a known format may raise (`writeFails`), in which case the exception is
caught and the path is not appended; a successful path is appended. -/
def Exporter.exportStep (output_path : PyPath) (writeFails : String → Bool)
    (exported_files : List PyPath) (fmt : String) : List PyPath :=
  if fmt = "json" then
    if writeFails fmt then exported_files
    else exported_files ++ [Exporter.export_json_path output_path]
  else if fmt = "txt" then
    if writeFails fmt then exported_files
    else exported_files ++ [Exporter.export_txt_path output_path]
  else if fmt = "srt" then
    if writeFails fmt then exported_files
    else exported_files ++ [Exporter.export_srt_path output_path]
  else exported_files

/-- `Exporter.export` (src/utils/exporter.py:24-61): fold the per-format loop
over the requested formats, returning the list of paths actually written. -/
def Exporter.exportFormats (output_path : PyPath) (formats : List String)
    (writeFails : String → Bool) : List PyPath :=
  formats.foldl (Exporter.exportStep output_path writeFails) []

/-- One transcription segment: the Python dict's optional keys become `Option`
fields.  The source key `end` is a Lean keyword and is rendered `stop`. -/
structure Segment where
  start : Option ℚ := none
  stop : Option ℚ := none
  text : Option String := none
  speaker : Option String := none
deriving DecidableEq

/-- `Exporter._format_timestamp` (src/utils/exporter.py:155-160):
`f"{int(seconds // 60):02d}:{int(seconds % 60):02d}"`. -/
def Exporter.format_timestamp (seconds : ℚ) : String :=
  padInt 2 ⌊seconds / 60⌋ ++ ":" ++ padInt 2 (pyInt (pyMod seconds 60))

/-- `Exporter._to_srt_time` (src/utils/exporter.py:162-169): hours, minutes,
seconds and milliseconds fields, zero-padded to 2/2/2/3 digits. -/
def Exporter.to_srt_time (seconds : ℚ) : String :=
  padInt 2 ⌊seconds / 3600⌋ ++ ":" ++ padInt 2 ⌊pyMod seconds 3600 / 60⌋ ++ ":" ++
    padInt 2 (pyInt (pyMod seconds 60)) ++ "," ++ padInt 3 (pyInt (pyMod seconds 1 * 1000))

/-- The rendering claimed by the specification for the SRT time fields:
`floor` applied to the same four quantities (claim C6's statement). -/
def Exporter.srt_time_spec (s : ℚ) : String :=
  padInt 2 ⌊s / 3600⌋ ++ ":" ++ padInt 2 ⌊pyMod s 3600 / 60⌋ ++ ":" ++
    padInt 2 ⌊pyMod s 60⌋ ++ "," ++ padInt 3 ⌊pyMod s 1 * 1000⌋

/-- One line of `Exporter.export_txt` (src/utils/exporter.py:105-122): optional
`[speaker]` part (only when enabled and the key is present), optional
`[MM:SS -> MM:SS]` part (missing timestamps default to `0` via
`segment.get('start', 0)`), then the stripped text; parts joined by spaces. -/
def Exporter.txt_segment_line (include_speakers include_timestamps : Bool)
    (segment : Segment) : String :=
  let parts1 : List String :=
    match include_speakers, segment.speaker with
    | true, some spk => ["[" ++ spk ++ "]"]
    | _, _ => []
  let parts2 : List String :=
    if include_timestamps then
      ["[" ++ Exporter.format_timestamp (segment.start.getD 0) ++ " -> " ++
         Exporter.format_timestamp (segment.stop.getD 0) ++ "]"]
    else []
  String.intercalate " " (parts1 ++ parts2 ++ [trimStr (segment.text.getD "")])

/-- The full text written by `Exporter.export_txt`: one line per segment. -/
def Exporter.export_txt_content (include_speakers include_timestamps : Bool)
    (segments : List Segment) : String :=
  String.join (segments.map
    (fun s => Exporter.txt_segment_line include_speakers include_timestamps s ++ "\n"))

/-- One SRT cue (src/utils/exporter.py:140-151): index, time range with
missing timestamps defaulting to `0`, stripped text, blank separator line. -/
def Exporter.srt_cue (index : Nat) (segment : Segment) : String :=
  toString index ++ "\n" ++ Exporter.to_srt_time (segment.start.getD 0) ++ " --> " ++
    Exporter.to_srt_time (segment.stop.getD 0) ++ "\n" ++
    trimStr (segment.text.getD "") ++ "\n\n"

/-- The full text written by `Exporter.export_srt`: cues numbered from 1. -/
def Exporter.export_srt_content (segments : List Segment) : String :=
  String.join (segments.enum.map (fun p => Exporter.srt_cue (p.1 + 1) p.2))

/-- The run statistics dict `self.stats` of the pipeline
(src/pipeline/transcription_pipeline.py:43-48). -/
structure Stats where
  total : Nat
  success : Nat
  failed : Nat
  skipped : Nat
deriving DecidableEq

/-- Observable actions of a pipeline run, in execution order: the model load,
the discovery call, the per-file stage invocations, the final cleanup and the
statistics summary. -/
inductive Event where
  | loadModel : Event
  | findFiles : Event
  | checkExists : String → Event
  | loadAudio : String → Event
  | transcribe : String → Event
  | align : String → Event
  | diarize : String → Event
  | exportResults : String → Event
  | cleanup : Event
  | printStats : Event
deriving DecidableEq

/-- The three configuration flags the per-file state machine reads, already
resolved: `config.get('processing.skip_existing', False)`,
`config.get('alignment.enabled', True)`, `config.get('diarization.enabled',
False)`. -/
structure PCfg where
  skip_existing : Bool
  alignment_enabled : Bool
  diarization_enabled : Bool
deriving DecidableEq

/-- The environment one file is processed in: whether its outputs already
exist, and which external call (if any) raises.  Diarization errors are listed
too, but `_diarize` catches them internally. -/
structure FileEnv where
  outputs_exist : Bool
  load_audio_raises : Bool
  transcribe_raises : Bool
  align_raises : Bool
  diarize_raises : Bool
deriving DecidableEq

/-- The stages of `_process_file` after the skip check
(src/pipeline/transcription_pipeline.py:104-126): load audio, transcribe,
align when enabled, diarize when enabled (its exceptions are caught at
lines 209-211), export (whose per-format failures `Exporter.export` catches).
Returns whether an exception escaped, and the stages invoked. -/
def process_body (cfg : PCfg) (name : String) (env : FileEnv) : Bool × List Event :=
  if env.load_audio_raises then (true, [Event.loadAudio name])
  else if env.transcribe_raises then (true, [Event.loadAudio name, Event.transcribe name])
  else if cfg.alignment_enabled && env.align_raises then
    (true, [Event.loadAudio name, Event.transcribe name, Event.align name])
  else
    (false, [Event.loadAudio name, Event.transcribe name]
      ++ (if cfg.alignment_enabled then [Event.align name] else [])
      ++ (if cfg.diarization_enabled then [Event.diarize name] else [])
      ++ [Event.exportResults name])

/-- `_process_file` (src/pipeline/transcription_pipeline.py:86-126): when
skip-existing is on and every output exists, increment `skipped` and return
before loading audio; otherwise run the stages.  Returns the updated stats,
whether an exception escaped, and the invocations performed. -/
def process_file (cfg : PCfg) (name : String) (env : FileEnv) (stats : Stats) :
    Stats × Bool × List Event :=
  if cfg.skip_existing && env.outputs_exist then
    ({ stats with skipped := stats.skipped + 1 }, false, [Event.checkExists name])
  else
    let r := process_body cfg name env
    (stats, r.1, (if cfg.skip_existing then [Event.checkExists name] else []) ++ r.2)

/-- The body of the run loop (src/pipeline/transcription_pipeline.py:72-78):
`_process_file` in a `try`; on normal return `success` is incremented, on an
exception the error is logged and `failed` is incremented. -/
def runStep (cfg : PCfg) (acc : Stats × List Event) (fe : String × FileEnv) :
    Stats × List Event :=
  let r := process_file cfg fe.1 fe.2 acc.1
  if r.2.1 then ({ r.1 with failed := r.1.failed + 1 }, acc.2 ++ r.2.2)
  else ({ r.1 with success := r.1.success + 1 }, acc.2 ++ r.2.2)

/-- `TranscriptionPipeline.run` (src/pipeline/transcription_pipeline.py:50-84):
load the model, discover files; when the list is empty log a warning and
return (lines 65-67) — before `total` is set, before cleanup and before the
statistics summary; otherwise set `total`, loop over the files, then clean up
and print the statistics. -/
def TranscriptionPipeline.run (cfg : PCfg) (files : List (String × FileEnv)) :
    Stats × List Event :=
  if files.isEmpty then (⟨0, 0, 0, 0⟩, [Event.loadModel, Event.findFiles])
  else
    let p := files.foldl (runStep cfg) (⟨files.length, 0, 0, 0⟩, [Event.loadModel, Event.findFiles])
    (p.1, p.2 ++ [Event.cleanup, Event.printStats])

/-- The skip condition of `_process_file`, as a predicate on the environment. -/
def didSkip (cfg : PCfg) (env : FileEnv) : Bool := cfg.skip_existing && env.outputs_exist

/-- Whether processing this file lets an exception escape to the run loop. -/
def fileFails (cfg : PCfg) (env : FileEnv) : Bool :=
  !didSkip cfg env &&
    (env.load_audio_raises || env.transcribe_raises ||
      (cfg.alignment_enabled && env.align_raises))

/-- The invocations `_process_file` performs for one file (they do not depend
on the incoming statistics). -/
def fileTrace (cfg : PCfg) (name : String) (env : FileEnv) : List Event :=
  (process_file cfg name env ⟨0, 0, 0, 0⟩).2.2

/-- Configuration used by concrete runs: no skip-existing, alignment on,
diarization off (the file defaults). -/
def cfgW : PCfg := ⟨false, true, false⟩

/-- Configuration with skip-existing enabled. -/
def cfgS : PCfg := ⟨true, true, false⟩

/-- A file whose stages all succeed and whose outputs do not exist yet. -/
def envOk : FileEnv := ⟨false, false, false, false, false⟩

/-- A file whose transcription call raises. -/
def envTr : FileEnv := ⟨false, false, true, false, false⟩

/-- A file all of whose outputs already exist. -/
def envSk : FileEnv := ⟨true, false, false, false, false⟩

/-- Three files, the second of which throws during transcription. -/
def filesW : List (String × FileEnv) := [("a.mp3", envOk), ("b.mp3", envTr), ("c.mp3", envOk)]

/-- Two files, the first of which is skipped because its outputs exist. -/
def filesS : List (String × FileEnv) := [("a.mp3", envSk), ("b.mp3", envOk)]

/-- A sample configuration tree missing the `whisper.batch_size` and `paths`
keys. -/
def cfgYW : YVal := YVal.dict [("whisper", YVal.dict [("model_size", YVal.str "large-v2")])]

/-- The audio file used as concrete input for the export/skip round-trip. -/
def audioW : PyPath := ⟨"data/input", "foo.mp3"⟩

lemma listLe_total : ∀ (a b : List Char), listLe a b = true ∨ listLe b a = true
  | [], _ => Or.inl rfl
  | _ :: _, [] => Or.inr rfl
  | a :: as, b :: bs => by
      unfold listLe
      rcases lt_trichotomy a b with h | h | h
      · left; simp [h]
      · subst h
        simp only [lt_irrefl, if_false, if_pos rfl, if_neg (lt_irrefl a)]
        exact listLe_total as bs
      · right; simp [h]

lemma listLe_trans : ∀ (a b c : List Char),
    listLe a b = true → listLe b c = true → listLe a c = true
  | [], _, _, _, _ => rfl
  | _ :: _, [], _, h, _ => by simp [listLe] at h
  | _ :: _, _ :: _, [], _, h => by simp [listLe] at h
  | a :: as, b :: bs, c :: cs, h1, h2 => by
      unfold listLe at h1 h2 ⊢
      by_cases hab : a < b
      · by_cases hbc : b < c
        · simp [lt_trans hab hbc]
        · by_cases hbc2 : b = c
          · subst hbc2; simp [hab]
          · simp [hbc, hbc2] at h2
      · by_cases hab2 : a = b
        · subst hab2
          by_cases hbc : a < c
          · simp [hbc]
          · by_cases hbc2 : a = c
            · subst hbc2
              simp only [lt_irrefl, if_false, if_pos rfl, if_neg (lt_irrefl a)] at h1 h2 ⊢
              exact listLe_trans as bs cs h1 h2
            · simp [hbc, hbc2] at h2
        · simp [hab, hab2] at h1

lemma strLe_total (a b : String) : strLe a b = true ∨ strLe b a = true :=
  listLe_total a.data b.data

lemma strLe_trans (a b c : String) :
    strLe a b = true → strLe b c = true → strLe a c = true :=
  listLe_trans a.data b.data c.data

lemma mem_insertSorted (x y : String) :
    ∀ (l : List String), y ∈ insertSorted x l ↔ y = x ∨ y ∈ l
  | [] => by simp [insertSorted]
  | z :: zs => by
      unfold insertSorted
      by_cases h : strLe x z = true
      · simp [h, List.mem_cons]
      · simp [h, List.mem_cons, mem_insertSorted x y zs]; tauto

lemma pairwise_insertSorted (x : String) :
    ∀ (l : List String), l.Pairwise (fun a b => strLe a b = true) →
      (insertSorted x l).Pairwise (fun a b => strLe a b = true)
  | [], _ => by simp [insertSorted]
  | y :: ys, h => by
      unfold insertSorted
      rcases List.pairwise_cons.1 h with ⟨hy, hys⟩
      by_cases hxy : strLe x y = true
      · rw [if_pos hxy]
        refine List.pairwise_cons.2 ⟨?_, h⟩
        intro z hz
        rcases List.mem_cons.1 hz with rfl | hz
        · exact hxy
        · exact strLe_trans x y z hxy (hy z hz)
      · rw [if_neg hxy]
        refine List.pairwise_cons.2 ⟨?_, pairwise_insertSorted x ys hys⟩
        intro z hz
        rcases (mem_insertSorted x z ys).1 hz with hzx | hz
        · rw [hzx]
          rcases strLe_total x y with h1 | h1
          · exact absurd h1 hxy
          · exact h1
        · exact hy z hz

lemma pairwise_sortStrs : ∀ (l : List String),
    (sortStrs l).Pairwise (fun a b => strLe a b = true)
  | [] => List.Pairwise.nil
  | x :: xs => pairwise_insertSorted x (sortStrs xs) (pairwise_sortStrs xs)

lemma mem_sortStrs (y : String) : ∀ (l : List String), y ∈ sortStrs l ↔ y ∈ l
  | [] => Iff.rfl
  | x :: xs => by
      unfold sortStrs
      rw [mem_insertSorted x y (sortStrs xs), mem_sortStrs y xs]
      simp [List.mem_cons]

lemma process_file_stats (cfg : PCfg) (n : String) (e : FileEnv) (st : Stats) :
    (process_file cfg n e st).1 =
      if didSkip cfg e then { st with skipped := st.skipped + 1 } else st := by
  by_cases h : (cfg.skip_existing && e.outputs_exist) = true
  · simp [process_file, didSkip, h]
  · simp [process_file, didSkip, h]

lemma process_file_raised (cfg : PCfg) (n : String) (e : FileEnv) (st : Stats) :
    (process_file cfg n e st).2.1 = fileFails cfg e := by
  by_cases h : (cfg.skip_existing && e.outputs_exist) = true
  · simp [process_file, fileFails, didSkip, h]
  · simp only [process_file, h, if_false, Bool.false_eq_true, fileFails, didSkip]
    unfold process_body
    by_cases h1 : e.load_audio_raises = true
    · simp [h, h1]
    · by_cases h2 : e.transcribe_raises = true
      · simp [h, h1, h2]
      · by_cases h3 : (cfg.alignment_enabled && e.align_raises) = true
        · simp [h, h1, h2, h3]
        · simp [h, h1, h2, h3]

lemma process_file_events (cfg : PCfg) (n : String) (e : FileEnv) (st : Stats) :
    (process_file cfg n e st).2.2 = fileTrace cfg n e := by
  unfold fileTrace process_file
  by_cases h : (cfg.skip_existing && e.outputs_exist) = true
  · simp [h]
  · simp [h]

lemma didSkip_not_fails (cfg : PCfg) (e : FileEnv) (h : didSkip cfg e = true) :
    fileFails cfg e = false := by
  simp [fileFails, h]

lemma loadAudio_mem_fileTrace (cfg : PCfg) (n : String) (e : FileEnv)
    (h : didSkip cfg e = false) : Event.loadAudio n ∈ fileTrace cfg n e := by
  unfold fileTrace process_file
  unfold didSkip at h
  simp only [h, Bool.false_eq_true, if_false]
  unfold process_body
  by_cases h1 : e.load_audio_raises = true
  · simp [h1]
  · by_cases h2 : e.transcribe_raises = true
    · simp [h1, h2]
    · by_cases h3 : (cfg.alignment_enabled && e.align_raises) = true
      · simp [h1, h2, h3]
      · simp [h1, h2, h3]

lemma fileTrace_no_run_events (cfg : PCfg) (n : String) (e : FileEnv) :
    Event.loadModel ∉ fileTrace cfg n e ∧ Event.findFiles ∉ fileTrace cfg n e ∧
      Event.cleanup ∉ fileTrace cfg n e ∧ Event.printStats ∉ fileTrace cfg n e := by
  unfold fileTrace process_file
  by_cases h : (cfg.skip_existing && e.outputs_exist) = true
  · simp [h]
  · simp only [h, Bool.false_eq_true, if_false]
    unfold process_body
    by_cases h1 : e.load_audio_raises = true <;>
      by_cases h2 : e.transcribe_raises = true <;>
        by_cases h3 : (cfg.alignment_enabled && e.align_raises) = true <;>
          by_cases h4 : cfg.skip_existing = true <;>
            simp [h1, h2, h3, h4]

lemma runStep_eq (cfg : PCfg) (st : Stats) (evs : List Event) (f : String × FileEnv) :
    runStep cfg (st, evs) f =
      (⟨st.total,
        st.success + (if fileFails cfg f.2 then 0 else 1),
        st.failed + (if fileFails cfg f.2 then 1 else 0),
        st.skipped + (if didSkip cfg f.2 then 1 else 0)⟩,
       evs ++ fileTrace cfg f.1 f.2) := by
  unfold runStep
  simp only [process_file_stats, process_file_raised, process_file_events]
  by_cases h1 : fileFails cfg f.2 = true <;> by_cases h2 : didSkip cfg f.2 = true <;>
    simp [h1, h2]

lemma foldl_runStep_spec (cfg : PCfg) :
    ∀ (files : List (String × FileEnv)) (st : Stats) (evs : List Event),
      files.foldl (runStep cfg) (st, evs) =
        (⟨st.total,
          st.success + files.countP (fun fe => !fileFails cfg fe.2),
          st.failed + files.countP (fun fe => fileFails cfg fe.2),
          st.skipped + files.countP (fun fe => didSkip cfg fe.2)⟩,
         evs ++ files.flatMap (fun fe => fileTrace cfg fe.1 fe.2))
  | [], st, evs => by simp
  | f :: fs, st, evs => by
      rw [List.foldl_cons, runStep_eq, foldl_runStep_spec cfg fs]
      refine Prod.ext ?_ ?_
      · simp only [List.countP_cons, Stats.mk.injEq]
        by_cases h : fileFails cfg f.2 = true <;> by_cases h2 : didSkip cfg f.2 = true <;>
          simp [h, h2] <;> omega
      · simp [List.flatMap_cons, List.append_assoc]

lemma run_eq_of_ne_nil (cfg : PCfg) (files : List (String × FileEnv)) (h : files ≠ []) :
    TranscriptionPipeline.run cfg files =
      (⟨files.length,
        files.countP (fun fe => !fileFails cfg fe.2),
        files.countP (fun fe => fileFails cfg fe.2),
        files.countP (fun fe => didSkip cfg fe.2)⟩,
       [Event.loadModel, Event.findFiles] ++ files.flatMap (fun fe => fileTrace cfg fe.1 fe.2)
         ++ [Event.cleanup, Event.printStats]) := by
  unfold TranscriptionPipeline.run
  rw [if_neg (by simp [List.isEmpty_iff, h])]
  rw [foldl_runStep_spec cfg files ⟨files.length, 0, 0, 0⟩ [Event.loadModel, Event.findFiles]]
  simp [List.append_assoc]

lemma getKeys_default_of_not_present :
    ∀ (keys : List String) (value default : YVal),
      Config.pathPresent value keys = false →
        Config.getKeys keys value default = default
  | [], value, default, h => by simp [Config.pathPresent] at h
  | key :: rest, value, default, h => by
      cases value with
      | dict m =>
          unfold Config.pathPresent at h
          unfold Config.getKeys
          cases hm : m.lookup key with
          | none => simp [hm]
          | some w =>
              simp only [hm] at h ⊢
              cases w with
              | null => rfl
              | bool b => exact getKeys_default_of_not_present rest (YVal.bool b) default h
              | int i => exact getKeys_default_of_not_present rest (YVal.int i) default h
              | str s => exact getKeys_default_of_not_present rest (YVal.str s) default h
              | list l => exact getKeys_default_of_not_present rest (YVal.list l) default h
              | dict m2 => exact getKeys_default_of_not_present rest (YVal.dict m2) default h
      | null => rfl
      | bool b => rfl
      | int i => rfl
      | str s => rfl
      | list l => rfl

lemma pyMod_nonneg (x m : ℚ) (hm : 0 < m) : 0 ≤ pyMod x m := by
  unfold pyMod
  have hm0 : m ≠ 0 := ne_of_gt hm
  have h2 : x - m * ⌊x / m⌋ = m * (x / m - ⌊x / m⌋) := by field_simp
  rw [h2]
  exact mul_nonneg hm.le (sub_nonneg.2 (Int.floor_le (x / m)))

lemma exportStep_eq (out : PyPath) (wf : String → Bool) (acc : List PyPath) (fmt : String) :
    Exporter.exportStep out wf acc fmt =
      acc ++ (if ((fmt == "json" || fmt == "txt" || fmt == "srt") && !wf fmt) = true
              then [Exporter.fmtPath out fmt] else []) := by
  unfold Exporter.exportStep
  by_cases h1 : fmt = "json"
  · subst h1
    by_cases h : wf "json" = true <;>
      simp [h, Exporter.fmtPath, Exporter.export_json_path]
  · by_cases h2 : fmt = "txt"
    · subst h2
      by_cases h : wf "txt" = true <;>
        simp [h, Exporter.fmtPath, Exporter.export_txt_path]
    · by_cases h3 : fmt = "srt"
      · subst h3
        by_cases h : wf "srt" = true <;>
          simp [h, Exporter.fmtPath, Exporter.export_srt_path]
      · simp [h1, h2, h3]

lemma exportFormats_go (out : PyPath) (wf : String → Bool) :
    ∀ (formats : List String) (acc : List PyPath),
      formats.foldl (Exporter.exportStep out wf) acc =
        acc ++ (formats.filter (fun f => (f == "json" || f == "txt" || f == "srt") && !wf f)).map
          (Exporter.fmtPath out)
  | [], acc => by simp
  | fmt :: rest, acc => by
      rw [List.foldl_cons, exportStep_eq, exportFormats_go out wf rest]
      by_cases h : ((fmt == "json" || fmt == "txt" || fmt == "srt") && !wf fmt) = true <;>
        simp [h, List.filter_cons, List.append_assoc]

lemma count_flatMap_zero (cfg : PCfg) (files : List (String × FileEnv)) (ev : Event)
    (h : ∀ (n : String) (e : FileEnv), ev ∉ fileTrace cfg n e) :
    (files.flatMap (fun fe => fileTrace cfg fe.1 fe.2)).count ev = 0 := by
  rw [List.count_eq_zero]
  intro hmem
  rcases List.mem_flatMap.1 hmem with ⟨fe, hfe, hmemt⟩
  exact h fe.1 fe.2 hmemt

lemma countP_not_fails_eq (cfg : PCfg) :
    ∀ (files : List (String × FileEnv)),
      files.countP (fun fe => !fileFails cfg fe.2) +
        files.countP (fun fe => fileFails cfg fe.2) = files.length
  | [] => rfl
  | f :: fs => by
      simp only [List.countP_cons, List.length_cons]
      have ih := countP_not_fails_eq cfg fs
      by_cases h : fileFails cfg f.2 = true <;> simp [h] <;> omega

/-- Claim C1 (status: code bug).  The pipeline's export step
(src/pipeline/transcription_pipeline.py:118-124) resolves the base path with an
empty extension, producing the name `foo_transcricao.` whose Python stem keeps
the trailing dot; `Exporter.export_json` therefore writes
`foo_transcricao..json` (double dot), which differs from the path
`foo_transcricao.json` that `get_output_path`/`output_exists` check, so
`output_exists` is false even right after a successful export and the
skip-if-already-processed round trip never holds. -/
theorem pipeline_export_path_mismatch :
    Exporter.export_json_path (FileHandler.get_output_path "data/output" audioW "") =
      ⟨"data/output", "foo_transcricao..json"⟩ ∧
    FileHandler.get_output_path "data/output" audioW "json" =
      ⟨"data/output", "foo_transcricao.json"⟩ ∧
    FileHandler.output_exists
        [Exporter.export_json_path (FileHandler.get_output_path "data/output" audioW "")]
        "data/output" audioW ["json"] = false := by
  refine ⟨?_, ?_, ?_⟩ <;> decide

/-- Claim C2, counterexample: globbing is case-sensitive on POSIX, so with
files `b.MP3, a.wav, c.txt` and extensions `[.mp3, .wav]` the result is
`[a.wav]`, not the claimed `[a.wav, b.MP3]`. -/
theorem find_audio_files_not_case_insensitive :
    FileHandler.find_audio_files ["b.MP3", "a.wav", "c.txt"] [".mp3", ".wav"] = ["a.wav"] ∧
    FileHandler.find_audio_files ["b.MP3", "a.wav", "c.txt"] [".mp3", ".wav"] ≠
      ["a.wav", "b.MP3"] := by
  refine ⟨?_, ?_⟩ <;> decide

/-- Claim C2 (amended): `find_audio_files` returns exactly the files whose name
ends with one of the configured extensions lowercased — a case-sensitive match
on the file name, so files with upper-case extensions are excluded — sorted
lexicographically (an empty result when nothing matches follows from the
membership characterisation); on `b.MP3, a.wav, c.txt` with `[.mp3, .wav]` it
returns `[a.wav]`. -/
theorem find_audio_files_spec (dirFiles exts : List String) :
    (FileHandler.find_audio_files dirFiles exts).Pairwise (fun a b => strLe a b = true) ∧
    (∀ f, f ∈ FileHandler.find_audio_files dirFiles exts ↔
        f ∈ dirFiles ∧ ∃ e ∈ exts, strEndsWith f (strToLower e) = true) ∧
    FileHandler.find_audio_files ["b.MP3", "a.wav", "c.txt"] [".mp3", ".wav"] = ["a.wav"] := by
  refine ⟨pairwise_sortStrs _, ?_, by decide⟩
  intro f
  simp only [FileHandler.find_audio_files, mem_sortStrs, List.mem_flatMap, List.mem_map,
    List.mem_filter]
  constructor
  · rintro ⟨ext, ⟨e, he, rfl⟩, hf, hend⟩
    exact ⟨hf, e, he, hend⟩
  · rintro ⟨hf, e, he, hend⟩
    exact ⟨strToLower e, ⟨e, he, rfl⟩, hf, hend⟩

/-- Claim C3: when exactly one discovered file lets an exception escape during
its processing and no file is skipped, the run ends with statistics
`{total: n, success: n-1, failed: 1, skipped: 0}` and every file is still
processed (its audio load is invoked) — the failure is isolated to one file. -/
theorem run_isolates_single_failure (cfg : PCfg) (files : List (String × FileEnv))
    (h1 : files.countP (fun fe => fileFails cfg fe.2) = 1)
    (h2 : files.countP (fun fe => didSkip cfg fe.2) = 0) :
    (TranscriptionPipeline.run cfg files).1 = ⟨files.length, files.length - 1, 1, 0⟩ ∧
      ∀ fe ∈ files, Event.loadAudio fe.1 ∈ (TranscriptionPipeline.run cfg files).2 := by
  have hne : files ≠ [] := by
    intro hnil
    subst hnil
    simp at h1
  rw [run_eq_of_ne_nil cfg files hne]
  constructor
  · have hsum := countP_not_fails_eq cfg files
    simp only [Stats.mk.injEq]
    refine ⟨trivial, ?_, h1, h2⟩
    omega
  · intro fe hfe
    have hskip : didSkip cfg fe.2 = false := by
      have := List.countP_eq_zero.1 h2 fe hfe
      simpa using this
    refine List.mem_append.2 (Or.inl (List.mem_append.2 (Or.inr ?_)))
    exact List.mem_flatMap.2 ⟨fe, hfe, loadAudio_mem_fileTrace cfg fe.1 fe.2 hskip⟩

/-- Claim C3, witness: three files where the second raises in transcription
yield `{total: 3, success: 2, failed: 1, skipped: 0}` and the third file's
audio load is reached. -/
theorem run_isolates_single_failure_witness :
    (TranscriptionPipeline.run cfgW filesW).1 = ⟨3, 2, 1, 0⟩ ∧
      Event.loadAudio "c.mp3" ∈ (TranscriptionPipeline.run cfgW filesW).2 :=
  ⟨(run_isolates_single_failure cfgW filesW (by decide) (by decide)).1,
   (run_isolates_single_failure cfgW filesW (by decide) (by decide)).2
     ("c.mp3", envOk) (by decide)⟩

/-- Claim C4, counterexample: with an empty discovered file list the run
returns early (src/pipeline/transcription_pipeline.py:65-67): the trace stops
after model load and discovery, with neither the cleanup nor the statistics
summary performed — refuting the claim that both happen unconditionally. -/
theorem run_empty_list_no_cleanup :
    (TranscriptionPipeline.run cfgW []).2 = [Event.loadModel, Event.findFiles] ∧
      Event.cleanup ∉ (TranscriptionPipeline.run cfgW []).2 ∧
      Event.printStats ∉ (TranscriptionPipeline.run cfgW []).2 := by
  refine ⟨rfl, ?_, ?_⟩ <;> decide

/-- Claim C4 (amended): for every run over a non-empty discovered list the
sequence is model load once, discovery once, the per-file state machine over
the files, then cleanup and the statistics summary exactly once each at the
end; when the discovered list is empty the run instead returns early after the
discovery, performing neither cleanup nor the summary. -/
theorem run_sequence_nonempty (cfg : PCfg) (files : List (String × FileEnv))
    (h : files ≠ []) :
    (TranscriptionPipeline.run cfg files).2 =
      [Event.loadModel, Event.findFiles] ++ files.flatMap (fun fe => fileTrace cfg fe.1 fe.2)
        ++ [Event.cleanup, Event.printStats] ∧
    (TranscriptionPipeline.run cfg files).2.count Event.loadModel = 1 ∧
    (TranscriptionPipeline.run cfg files).2.count Event.findFiles = 1 ∧
    (TranscriptionPipeline.run cfg files).2.count Event.cleanup = 1 ∧
    (TranscriptionPipeline.run cfg files).2.count Event.printStats = 1 ∧
    (TranscriptionPipeline.run cfg []).2 = [Event.loadModel, Event.findFiles] := by
  rw [run_eq_of_ne_nil cfg files h]
  refine ⟨rfl, ?_, ?_, ?_, ?_, rfl⟩
  · rw [List.count_append, List.count_append,
      count_flatMap_zero cfg files Event.loadModel
        (fun n e => (fileTrace_no_run_events cfg n e).1)]
    decide
  · rw [List.count_append, List.count_append,
      count_flatMap_zero cfg files Event.findFiles
        (fun n e => (fileTrace_no_run_events cfg n e).2.1)]
    decide
  · rw [List.count_append, List.count_append,
      count_flatMap_zero cfg files Event.cleanup
        (fun n e => (fileTrace_no_run_events cfg n e).2.2.1)]
    decide
  · rw [List.count_append, List.count_append,
      count_flatMap_zero cfg files Event.printStats
        (fun n e => (fileTrace_no_run_events cfg n e).2.2.2)]
    decide

/-- Claim C4, witness: a one-file run produces the full sequence ending in
cleanup and the statistics summary. -/
theorem run_sequence_nonempty_witness :
    (TranscriptionPipeline.run cfgW [("a.mp3", envOk)]).2 =
      [Event.loadModel, Event.findFiles, Event.loadAudio "a.mp3", Event.transcribe "a.mp3",
       Event.align "a.mp3", Event.exportResults "a.mp3", Event.cleanup, Event.printStats] :=
  (run_sequence_nonempty cfgW [("a.mp3", envOk)] (by decide)).1

/-- Claim C5: `Config.get` walks the nested mapping split on dots, and
whenever the dotted path is not present in the tree — a missing key or a
non-mapping intermediate value at any step — it returns the supplied default
(totality of the embedded function is Lean's guarantee that it never raises). -/
theorem config_get_default_of_not_present (config : YVal) (key_path : String)
    (default : YVal) (h : Config.pathPresent config (splitOnChar '.' key_path) = false) :
    Config.get config key_path default = default :=
  getKeys_default_of_not_present (splitOnChar '.' key_path) config default h

/-- Claim C5, witness: looking up the absent keys `whisper.batch_size` and
`paths.input` in a tree that lacks them yields the defaults. -/
theorem config_get_default_witness :
    Config.get cfgYW "whisper.batch_size" (YVal.int 16) = YVal.int 16 ∧
      Config.get cfgYW "paths.input" (YVal.str "data/input") = YVal.str "data/input" :=
  ⟨config_get_default_of_not_present cfgYW "whisper.batch_size" (YVal.int 16) (by rfl),
   config_get_default_of_not_present cfgYW "paths.input" (YVal.str "data/input") (by rfl)⟩

/-- Claim C7: with skip-existing enabled and all outputs present, processing a
file increments only the skipped counter and returns immediately with the
existence check as its sole action — neither audio loading nor transcription is
invoked. -/
theorem skip_existing_short_circuits (cfg : PCfg) (name : String) (env : FileEnv)
    (st : Stats) (h1 : cfg.skip_existing = true) (h2 : env.outputs_exist = true) :
    process_file cfg name env st =
      ({ st with skipped := st.skipped + 1 }, false, [Event.checkExists name]) ∧
    Event.loadAudio name ∉ (process_file cfg name env st).2.2 ∧
    Event.transcribe name ∉ (process_file cfg name env st).2.2 := by
  have hc : (cfg.skip_existing && env.outputs_exist) = true := by rw [h1, h2]; rfl
  refine ⟨?_, ?_, ?_⟩ <;> simp [process_file, hc]

/-- Claim C7, witness: the skip branch taken on a concrete file. -/
theorem skip_existing_short_circuits_witness :
    process_file cfgS "a.mp3" envSk ⟨3, 1, 0, 0⟩ =
      (⟨3, 1, 0, 1⟩, false, [Event.checkExists "a.mp3"]) :=
  (skip_existing_short_circuits cfgS "a.mp3" envSk ⟨3, 1, 0, 0⟩ rfl rfl).1

/-- Claim C8: the export loop attempts each requested format independently —
the returned list is exactly the known formats whose write succeeded, mapped
to their output paths, in request order: unknown names and failing writes are
skipped without aborting the rest, as the instance with an unknown `xml`
between two successful formats shows. -/
theorem exporter_export_spec (output_path : PyPath) (formats : List String)
    (writeFails : String → Bool) :
    Exporter.exportFormats output_path formats writeFails =
      (formats.filter (fun f => (f == "json" || f == "txt" || f == "srt") && !writeFails f)).map
        (Exporter.fmtPath output_path) ∧
    Exporter.exportFormats output_path ["json", "xml", "srt"] (fun _ => false) =
      [Exporter.fmtPath output_path "json", Exporter.fmtPath output_path "srt"] := by
  constructor
  · unfold Exporter.exportFormats
    rw [exportFormats_go]
    rfl
  · unfold Exporter.exportFormats
    rw [exportFormats_go]
    rfl

/-- Claim C10: for every run over a non-empty list, success and failed
partition the total; a skipped file increments both the skipped and the
success counters (the loop adds success whenever no exception escapes), hence
the three counters exceed the total exactly when something was skipped. -/
theorem run_stats_invariant (cfg : PCfg) (files : List (String × FileEnv))
    (h : files ≠ []) :
    ((TranscriptionPipeline.run cfg files).1.success +
        (TranscriptionPipeline.run cfg files).1.failed =
      (TranscriptionPipeline.run cfg files).1.total) ∧
    (TranscriptionPipeline.run cfg files).1.skipped ≤
      (TranscriptionPipeline.run cfg files).1.success ∧
    ((TranscriptionPipeline.run cfg files).1.skipped ≠ 0 →
      (TranscriptionPipeline.run cfg files).1.total <
        (TranscriptionPipeline.run cfg files).1.success +
          (TranscriptionPipeline.run cfg files).1.failed +
          (TranscriptionPipeline.run cfg files).1.skipped) ∧
    (∀ (n : String) (e : FileEnv) (st : Stats) (evs : List Event), didSkip cfg e = true →
      (runStep cfg (st, evs) (n, e)).1 =
        { st with success := st.success + 1, skipped := st.skipped + 1 }) := by
  have hsum := countP_not_fails_eq cfg files
  have hmono : files.countP (fun fe => didSkip cfg fe.2) ≤
      files.countP (fun fe => !fileFails cfg fe.2) := by
    apply List.countP_mono_left
    intro x _ hskip
    simp [fileFails, hskip]
  rw [run_eq_of_ne_nil cfg files h]
  refine ⟨?_, ?_, ?_, ?_⟩
  · exact hsum
  · exact hmono
  · intro hne
    dsimp only at hne ⊢
    omega
  · intro n e st evs hskip
    rw [runStep_eq]
    simp [didSkip_not_fails cfg e hskip, hskip]

/-- Claim C10, witness: a two-file run with one skipped file ends with
`{total: 2, success: 2, failed: 0, skipped: 1}`, whose counters sum beyond the
total. -/
theorem run_stats_invariant_witness :
    (TranscriptionPipeline.run cfgS filesS).1.total <
      (TranscriptionPipeline.run cfgS filesS).1.success +
        (TranscriptionPipeline.run cfgS filesS).1.failed +
        (TranscriptionPipeline.run cfgS filesS).1.skipped :=
  (run_stats_invariant cfgS filesS (by decide)).2.2.1 (by decide)

/-- Claim C6: the SRT time conversion renders floor(s/3600) hours,
floor((s%3600)/60) minutes, floor(s%60) seconds and floor((s%1)*1000)
milliseconds, zero-padded to 2/2/2/3 digits (for non-negative seconds the
code's `int()` truncations agree with the floors); 75.4 s renders as
`00:01:15,400` and 3661.005 s as `01:01:01,005`.  Seconds are modelled as
exact rationals (75.4 = 377/5, 3661.005 = 732201/200). -/
theorem to_srt_time_spec_holds :
    (∀ s : ℚ, 0 ≤ s → Exporter.to_srt_time s = Exporter.srt_time_spec s) ∧
    Exporter.to_srt_time (377 / 5) = "00:01:15,400" ∧
    Exporter.to_srt_time (732201 / 200) = "01:01:01,005" := by
  refine ⟨?_, ?_, ?_⟩
  · intro s _
    unfold Exporter.to_srt_time Exporter.srt_time_spec pyInt
    rw [if_pos (pyMod_nonneg s 60 (by norm_num)),
      if_pos (mul_nonneg (pyMod_nonneg s 1 (by norm_num)) (by norm_num))]
  · unfold Exporter.to_srt_time pyInt pyMod
    norm_num
    decide
  · unfold Exporter.to_srt_time pyInt pyMod
    norm_num
    decide

/-- Claim C6, witness: the conversion at 75.4 seconds agrees with the
floor-based specification rendering. -/
theorem to_srt_time_spec_holds_witness :
    Exporter.to_srt_time (377 / 5) = Exporter.srt_time_spec (377 / 5) :=
  to_srt_time_spec_holds.1 (377 / 5) (by norm_num)

/-- Claim C9, counterexample: a segment lacking its start/end keys is not
rendered with the timestamp field omitted — `segment.get('start', 0)` defaults
the missing timestamps to 0, so the txt line shows `[00:00 -> 00:00]` and the
SRT cue shows `00:00:00,000 --> 00:00:00,000` (the export does not fail, but
the field is present with defaulted values, not omitted). -/
theorem txt_srt_render_default_timestamps :
    Exporter.export_txt_content true true [⟨none, none, some " hello ", none⟩] =
      "[00:00 -> 00:00] hello\n" ∧
    Exporter.export_txt_content true true [⟨none, none, some " hello ", none⟩] ≠
      "hello\n" ∧
    Exporter.export_srt_content [⟨none, none, some " hello ", none⟩] =
      "1\n00:00:00,000 --> 00:00:00,000\nhello\n\n" := by
  have hft : Exporter.format_timestamp 0 = "00:00" := by
    unfold Exporter.format_timestamp pyInt pyMod
    norm_num
    decide
  have hst : Exporter.to_srt_time 0 = "00:00:00,000" := by
    unfold Exporter.to_srt_time pyInt pyMod
    norm_num
    decide
  have hline : Exporter.txt_segment_line true true ⟨none, none, some " hello ", none⟩ =
      "[00:00 -> 00:00] hello" := by
    unfold Exporter.txt_segment_line
    simp only [Option.getD_none, Option.getD_some, hft]
    decide
  have hcue : Exporter.srt_cue 1 ⟨none, none, some " hello ", none⟩ =
      "1\n00:00:00,000 --> 00:00:00,000\nhello\n\n" := by
    unfold Exporter.srt_cue
    simp only [Option.getD_none, Option.getD_some, hst]
    decide
  refine ⟨?_, ?_, ?_⟩
  · unfold Exporter.export_txt_content
    show String.join [Exporter.txt_segment_line true true ⟨none, none, some " hello ", none⟩
      ++ "\n"] = _
    rw [hline]
    decide
  · unfold Exporter.export_txt_content
    show String.join [Exporter.txt_segment_line true true ⟨none, none, some " hello ", none⟩
      ++ "\n"] ≠ _
    rw [hline]
    decide
  · unfold Exporter.export_srt_content
    show String.join [Exporter.srt_cue 1 ⟨none, none, some " hello ", none⟩] = _
    rw [hcue]
    decide

/-- Claim C9 (amended): the txt and srt exporters never fail on a segment
lacking the speaker or the start/end keys (the embedded renderers are total);
a missing speaker is omitted from the txt line, while missing start/end
timestamps are rendered as zero — `[00:00 -> 00:00]` in txt and
`00:00:00,000 --> 00:00:00,000` in srt — rather than omitted. -/
theorem exporters_degrade_gracefully :
    (∀ (its : Bool) (t : String),
        Exporter.txt_segment_line true its ⟨none, none, some t, none⟩ =
          Exporter.txt_segment_line false its ⟨none, none, some t, none⟩) ∧
    (∀ t : String,
        Exporter.txt_segment_line true true ⟨none, none, some t, none⟩ =
          "[00:00 -> 00:00] " ++ trimStr t) ∧
    (∀ t : String,
        Exporter.srt_cue 1 ⟨none, none, some t, none⟩ =
          "1\n00:00:00,000 --> 00:00:00,000\n" ++ trimStr t ++ "\n\n") := by
  have hft : Exporter.format_timestamp 0 = "00:00" := by
    unfold Exporter.format_timestamp pyInt pyMod
    norm_num
    decide
  have hst : Exporter.to_srt_time 0 = "00:00:00,000" := by
    unfold Exporter.to_srt_time pyInt pyMod
    norm_num
    decide
  refine ⟨?_, ?_, ?_⟩
  · intro its t
    rfl
  · intro t
    unfold Exporter.txt_segment_line
    simp only [Option.getD_none, Option.getD_some, hft]
    rfl
  · intro t
    unfold Exporter.srt_cue
    simp only [Option.getD_none, Option.getD_some, hst]
    rfl
